import Mathlib

/-!
Verification development for the phidget-rs safety wrapper.

The Rust sources are shallowly embedded: pure control flow becomes Lean
functions, FFI calls and heap (de)allocations become explicit `Event`
values collected in traces, and the native library's responses (return
codes, output pointers, probe answers) are passed in as parameters, since
the native library is an external black box.  Raw pointers are modelled as
natural numbers (pointer identity is all the code ever uses), a null
output string pointer is modelled as `Option.none`, and fallible
operations return `Except ReturnCode`.
-/

namespace Phidget

/-- The `ReturnCode` enumeration from `src/errors.rs` (`repr(u32)`). -/
inductive ReturnCode where
  | Ok
  | Perm
  | NoEnt
  | Timeout
  | Interrupted
  | Io
  | NoMemory
  | Access
  | Fault
  | Busy
  | Exist
  | NotDir
  | IsDir
  | Invalid
  | NFile
  | MFile
  | NoSPC
  | FBig
  | ROFS
  | RO
  | Unsupported
  | InvalidArg
  | Again
  | NotEmpty
  | Duplicate
  | Unexpected
  | Eof
  | ConnRef
  | BadPassword
  | NoDev
  | Pipe
  | Resolv
  | NetUnavail
  | ConnReset
  | HostUnreach
  | WrongDevice
  | UnknownVal
  | NotAttached
  | InvalidPacket
  | TooBig
  | BadVersion
  | Closed
  | NotConfigured
  | KeepAlive
  | Failsafe
  | UnknownValHigh
  | UnknownValLow
  | BadPower
  | PowerCycle
  | HallSensor
  | BadCurrent
  | BadConnection
  | Nack
  deriving DecidableEq, Repr

/-- The discriminant assigned to each variant in the `ReturnCode`
declaration of `src/errors.rs` (the `repr(u32)` values). -/
def ReturnCode.toNat : ReturnCode → Nat
  | Ok => 0
  | Perm => 1
  | NoEnt => 2
  | Timeout => 3
  | Interrupted => 4
  | Io => 5
  | NoMemory => 6
  | Access => 7
  | Fault => 8
  | Busy => 9
  | Exist => 10
  | NotDir => 11
  | IsDir => 12
  | Invalid => 13
  | NFile => 14
  | MFile => 15
  | NoSPC => 16
  | FBig => 17
  | ROFS => 18
  | RO => 19
  | Unsupported => 20
  | InvalidArg => 21
  | Again => 22
  | NotEmpty => 26
  | Duplicate => 27
  | Unexpected => 28
  | Eof => 31
  | ConnRef => 35
  | BadPassword => 37
  | NoDev => 40
  | Pipe => 41
  | Resolv => 44
  | NetUnavail => 45
  | ConnReset => 46
  | HostUnreach => 48
  | WrongDevice => 50
  | UnknownVal => 51
  | NotAttached => 52
  | InvalidPacket => 53
  | TooBig => 54
  | BadVersion => 55
  | Closed => 56
  | NotConfigured => 57
  | KeepAlive => 58
  | Failsafe => 59
  | UnknownValHigh => 60
  | UnknownValLow => 61
  | BadPower => 62
  | PowerCycle => 63
  | HallSensor => 64
  | BadCurrent => 65
  | BadConnection => 66
  | Nack => 67

/-- The fixed code table of `impl From<c_uint> for ReturnCode` in
`src/errors.rs`: each match arm `n => Variant`, in source order. -/
def codeTable : List (Nat × ReturnCode) :=
  [(0, ReturnCode.Ok), (1, ReturnCode.Perm), (2, ReturnCode.NoEnt),
   (3, ReturnCode.Timeout), (4, ReturnCode.Interrupted), (5, ReturnCode.Io),
   (6, ReturnCode.NoMemory), (7, ReturnCode.Access), (8, ReturnCode.Fault),
   (9, ReturnCode.Busy), (10, ReturnCode.Exist), (11, ReturnCode.NotDir),
   (12, ReturnCode.IsDir), (13, ReturnCode.Invalid), (14, ReturnCode.NFile),
   (15, ReturnCode.MFile), (16, ReturnCode.NoSPC), (17, ReturnCode.FBig),
   (18, ReturnCode.ROFS), (19, ReturnCode.RO), (20, ReturnCode.Unsupported),
   (21, ReturnCode.InvalidArg), (22, ReturnCode.Again),
   (26, ReturnCode.NotEmpty), (27, ReturnCode.Duplicate),
   (28, ReturnCode.Unexpected), (31, ReturnCode.Eof),
   (35, ReturnCode.ConnRef), (37, ReturnCode.BadPassword),
   (40, ReturnCode.NoDev), (41, ReturnCode.Pipe), (44, ReturnCode.Resolv),
   (45, ReturnCode.NetUnavail), (46, ReturnCode.ConnReset),
   (48, ReturnCode.HostUnreach), (50, ReturnCode.WrongDevice),
   (51, ReturnCode.UnknownVal), (52, ReturnCode.NotAttached),
   (53, ReturnCode.InvalidPacket), (54, ReturnCode.TooBig),
   (55, ReturnCode.BadVersion), (56, ReturnCode.Closed),
   (57, ReturnCode.NotConfigured), (58, ReturnCode.KeepAlive),
   (59, ReturnCode.Failsafe), (60, ReturnCode.UnknownValHigh),
   (61, ReturnCode.UnknownValLow), (62, ReturnCode.BadPower),
   (63, ReturnCode.PowerCycle), (64, ReturnCode.HallSensor),
   (65, ReturnCode.BadCurrent), (66, ReturnCode.BadConnection),
   (67, ReturnCode.Nack)]

/-- The native codes appearing in the fixed table. -/
def tableCodes : List Nat := codeTable.map Prod.fst

/-- `impl From<c_uint> for ReturnCode` in `src/errors.rs`: a match of the
raw code against the fixed table, with the wildcard arm mapping every
other value to `Unexpected`. -/
def ReturnCode.fromNat (val : Nat) : ReturnCode :=
  match codeTable.lookup val with
  | some c => c
  | none => ReturnCode.Unexpected

/-- `ReturnCode::result` in `src/errors.rs`: zero is `Ok(())`, everything
else becomes `Err(ReturnCode::from(rc))`. -/
def ReturnCode.result (rc : Nat) : Except ReturnCode Unit :=
  match rc with
  | 0 => Except.ok ()
  | _ => Except.error (ReturnCode.fromNat rc)

/-! ## Observable effects

Every call the wrapper layer makes across the FFI boundary, and every
heap allocation or release of a double-boxed callback, is recorded as
one `Event`.  Handles and context pointers are identified by `Nat`. -/

/-- One observable effect at the FFI / heap boundary. -/
inductive Event where
  /-- `Box::into_raw(Box::new(Box::new(cb)))` producing context pointer `ctx`. -/
  | allocBox (ctx : Nat)
  /-- `Box::from_raw` reconstructing and dropping the double box at `ctx`
  (the body of `drop_cb` in `src/lib.rs`). -/
  | freeBox (ctx : Nat)
  /-- `Phidget_getIsOpen(h, ..)`. -/
  | getIsOpen (h : Nat)
  /-- `Phidget_close(h)`. -/
  | closeChan (h : Nat)
  /-- the per-device native delete entry point, e.g. `PhidgetHumiditySensor_delete(&mut h)`. -/
  | deleteChan (h : Nat)
  /-- `Phidget_retain(h)`. -/
  | retain (h : Nat)
  /-- `Phidget_release(&mut h)`. -/
  | release (h : Nat)
  /-- `Phidget_openWaitForAttachment(h, ms)`. -/
  | openWaitForAttachment (h : Nat) (ms : Nat)
  /-- `Phidget_setOnAttachHandler(h, Some(on_attach), ctx)`. -/
  | setOnAttach (h : Nat) (ctx : Nat)
  /-- `Phidget_setOnDetachHandler(h, Some(on_detach), ctx)`. -/
  | setOnDetach (h : Nat) (ctx : Nat)
  /-- `PhidgetHumiditySensor_setOnHumidityChangeHandler(h, Some(on_humidity_change), ctx)`. -/
  | setOnHumidityChange (h : Nat) (ctx : Nat)
  /-- `PhidgetManager_close(h)`. -/
  | managerClose (h : Nat)
  /-- `PhidgetManager_setOnAttachHandler(h, Some(on_attach_device), ctx)`. -/
  | managerSetOnAttach (h : Nat) (ctx : Nat)
  /-- `PhidgetManager_setOnDetachHandler(h, Some(on_detach_device), ctx)`. -/
  | managerSetOnDetach (h : Nat) (ctx : Nat)
  /-- the user closure stored at `ctx` being invoked by a trampoline. -/
  | invokeClosure (ctx : Nat)
  deriving DecidableEq, Repr

/-- `drop_cb::<P>` from `src/lib.rs`: if the optional slot holds a context
pointer, reconstruct the `Box<Box<P>>` from it and drop it; otherwise do
nothing. -/
def drop_cb (cb : Option Nat) : List Event :=
  match cb with
  | none => []
  | some ctx => [Event.freeBox ctx]

/-! ## Duration and `open_wait`

`std::time::Duration` is seconds plus a sub-second nanosecond count;
`as_millis` returns `secs * 1000 + nanos / 1_000_000` (as `u128`, which
cannot overflow, so plain `Nat` is faithful). -/

/-- Model of `std::time::Duration` (`nanos < 1_000_000_000` holds for any
value the Rust type can represent). -/
structure Duration where
  secs : Nat
  nanos : Nat
  deriving DecidableEq, Repr

/-- `Duration::as_millis`. -/
def Duration.asMillis (d : Duration) : Nat :=
  d.secs * 1000 + d.nanos / 1000000

/-- `Phidget::open_wait` from `src/phidget.rs`:
`u32::try_from(to.as_millis()).map_err(|_| ReturnCode::InvalidArg)?`
followed by the native `Phidget_openWaitForAttachment` call.  `h` is the
wrapper's handle and `rc` the code the native call would return; the
returned list is the trace of native calls performed. -/
def open_wait (h : Nat) (to' : Duration) (rc : Nat) :
    List Event × Except ReturnCode Unit :=
  if to'.asMillis < 4294967296 then
    ([Event.openWaitForAttachment h to'.asMillis], ReturnCode.result rc)
  else
    ([], Except.error ReturnCode.InvalidArg)

/-! ## String-returning calls -/

/-- `get_ffi_string` from `src/lib.rs`.  The native call is represented by
the code it returns (`rc`) and the string pointer it writes (`out`, with
`none` for a null pointer).  On success with a null pointer the function
returns `Err(ReturnCode::NoMemory)`; otherwise the C string is copied
into an owned `String` immediately. -/
def get_ffi_string (rc : Nat) (out : Option String) : Except ReturnCode String :=
  match ReturnCode.result rc with
  | Except.error e => Except.error e
  | Except.ok _ =>
    match out with
    | none => Except.error ReturnCode.NoMemory
    | some s => Except.ok s

/-- `Phidget::device_sku` from `src/phidget.rs`: checks the native code,
then maps a null SKU pointer to `Ok(String::new())` and a non-null one to
the copied owned string. -/
def device_sku (rc : Nat) (out : Option String) : Except ReturnCode String :=
  match ReturnCode.result rc with
  | Except.error e => Except.error e
  | Except.ok _ =>
    match out with
    | none => Except.ok ""
    | some s => Except.ok s

/-! ## Non-owning view and promotion (`src/phidget.rs`) -/

/-- `PhidgetRef` from `src/phidget.rs`: a tuple struct holding one native
handle, with no `Drop` implementation. -/
structure PhidgetRef where
  handle : Nat
  deriving DecidableEq, Repr

/-- `PhidgetRef::new` / `From<PhidgetHandle>`: wraps the handle value; the
returned trace records every native call made during construction. -/
def PhidgetRef.new (h : Nat) : PhidgetRef × List Event :=
  ({ handle := h }, [])

/-- Dropping a `PhidgetRef`: the type has no `Drop` impl and holds only a
raw pointer, so the drop glue performs no native call at all. -/
def PhidgetRef.dropEvents (_ : PhidgetRef) : List Event :=
  []

/-- The trace of constructing and immediately dropping `n` non-owning
`PhidgetRef` views over the handle `h`. -/
def refViewsTrace (h : Nat) : Nat → List Event
  | 0 => []
  | n + 1 =>
    (PhidgetRef.new h).2 ++ PhidgetRef.dropEvents (PhidgetRef.new h).1
      ++ refViewsTrace h n

/-- `GenericPhidget` from `src/phidget.rs`: an owning, reference-counted
generic handle. -/
structure GenericPhidget where
  handle : Nat
  deriving DecidableEq, Repr

/-- `impl TryFrom<PhidgetRef> for GenericPhidget`: calls
`Phidget_retain(phid.0)` and checks its code; on success the same handle
value is wrapped as an owning `GenericPhidget`.  `rc` is the code the
native retain call returns. -/
def GenericPhidget.try_from (phid : PhidgetRef) (rc : Nat) :
    List Event × Except ReturnCode GenericPhidget :=
  ([Event.retain phid.handle],
   match ReturnCode.result rc with
   | Except.ok _ => Except.ok { handle := phid.handle }
   | Except.error e => Except.error e)

/-- `impl Drop for GenericPhidget`: if `is_open()` yields `Ok(true)` the
channel is closed (result discarded), then `Phidget_release` is called.
`isOpenRc`/`isOpenVal` are the code and flag produced by the native
`Phidget_getIsOpen` probe. -/
def GenericPhidget.dropEvents (g : GenericPhidget) (isOpenRc : Nat)
    (isOpenVal : Bool) : List Event :=
  [Event.getIsOpen g.handle]
    ++ (if isOpenRc = 0 ∧ isOpenVal then [Event.closeChan g.handle] else [])
    ++ [Event.release g.handle]

/-! ## Attach/detach registration (`src/phidget.rs`) -/

/-- The free function `set_on_attach_handler` in `src/phidget.rs`: the
closure is double-boxed (`allocBox`), the raw pointer is handed to
`Phidget_setOnAttachHandler`, and the `?` operator returns the error
before `Ok(ctx)` can hand the pointer back to the caller.  `h` is the
wrapper's handle, `ctx` the pointer produced by `Box::into_raw`, and `rc`
the native call's code. -/
def set_on_attach_handler (h : Nat) (ctx : Nat) (rc : Nat) :
    List Event × Except ReturnCode Nat :=
  ([Event.allocBox ctx, Event.setOnAttach h ctx],
   match ReturnCode.result rc with
   | Except.ok _ => Except.ok ctx
   | Except.error e => Except.error e)

/-- The free function `set_on_detach_handler` in `src/phidget.rs`
(identical shape to the attach version). -/
def set_on_detach_handler (h : Nat) (ctx : Nat) (rc : Nat) :
    List Event × Except ReturnCode Nat :=
  ([Event.allocBox ctx, Event.setOnDetach h ctx],
   match ReturnCode.result rc with
   | Except.ok _ => Except.ok ctx
   | Except.error e => Except.error e)

/-! ## HumiditySensor (`src/devices/humidity_sensor.rs`) -/

/-- The `HumiditySensor` wrapper state: the native channel handle plus the
three optional double-boxed callback slots. -/
structure HumiditySensor where
  chan : Nat
  cb : Option Nat
  attach_cb : Option Nat
  detach_cb : Option Nat
  deriving DecidableEq, Repr

/-- `HumiditySensor::from(chan)`: wraps the handle with all slots empty. -/
def HumiditySensor.fromChan (chan : Nat) : HumiditySensor :=
  { chan := chan, cb := none, attach_cb := none, detach_cb := none }

/-- `HumiditySensor::set_on_humidity_change_handler`: double-box the
closure, store the raw pointer in `self.cb` (overwriting whatever was
there), then call the native registration entry point and convert its
code.  `ctx` is the pointer produced by `Box::into_raw` and `rc` the
native call's code. -/
def HumiditySensor.set_on_humidity_change_handler (s : HumiditySensor)
    (ctx : Nat) (rc : Nat) :
    HumiditySensor × List Event × Except ReturnCode Unit :=
  ({ s with cb := some ctx },
   [Event.allocBox ctx, Event.setOnHumidityChange s.chan ctx],
   ReturnCode.result rc)

/-- `HumiditySensor::set_on_attach_handler`: delegates to the free
function in `src/phidget.rs` and stores the returned pointer in
`self.attach_cb` only on success (`?` propagates the error first). -/
def HumiditySensor.set_on_attach_handler (s : HumiditySensor)
    (ctx : Nat) (rc : Nat) :
    HumiditySensor × List Event × Except ReturnCode Unit :=
  match Phidget.set_on_attach_handler s.chan ctx rc with
  | (evs, Except.ok c) => ({ s with attach_cb := some c }, evs, Except.ok ())
  | (evs, Except.error e) => (s, evs, Except.error e)

/-- `HumiditySensor::set_on_detach_handler` (same shape via the detach
free function). -/
def HumiditySensor.set_on_detach_handler (s : HumiditySensor)
    (ctx : Nat) (rc : Nat) :
    HumiditySensor × List Event × Except ReturnCode Unit :=
  match Phidget.set_on_detach_handler s.chan ctx rc with
  | (evs, Except.ok c) => ({ s with detach_cb := some c }, evs, Except.ok ())
  | (evs, Except.error e) => (s, evs, Except.error e)

/-- `impl Drop for HumiditySensor`: probe `is_open()`; on `Ok(true)` call
`close()` discarding its result; then `PhidgetHumiditySensor_delete`;
then release the three callback slots with `drop_cb`.  `isOpenRc` and
`isOpenVal` are the code and flag produced by the `Phidget_getIsOpen`
probe (the `close` call's own code is discarded by the source and does
not influence the trace). -/
def HumiditySensor.dropEvents (s : HumiditySensor) (isOpenRc : Nat)
    (isOpenVal : Bool) : List Event :=
  [Event.getIsOpen s.chan]
    ++ (if isOpenRc = 0 ∧ isOpenVal then [Event.closeChan s.chan] else [])
    ++ [Event.deleteChan s.chan]
    ++ drop_cb s.cb ++ drop_cb s.attach_cb ++ drop_cb s.detach_cb

/-- The trampoline `HumiditySensor::on_humidity_change`: with a non-null
context it reborrows the double box, builds a transient view of the
channel, invokes the closure, and `mem::forget`s the view, so the only
observable effect is the closure invocation; with a null context it does
nothing.  (`none` models a null `ctx`.) -/
def HumiditySensor.on_humidity_change (ctx : Option Nat) : List Event :=
  match ctx with
  | none => []
  | some c => [Event.invokeClosure c]

/-! ## PhidgetManager (`src/manager.rs`) -/

/-- The `PhidgetManager` wrapper state: the native manager handle plus the
two optional double-boxed callback slots. -/
structure PhidgetManager where
  mgr : Nat
  attach_cb : Option Nat
  detach_cb : Option Nat
  deriving DecidableEq, Repr

/-- `PhidgetManager::from(mgr)`: wraps the handle with both slots empty. -/
def PhidgetManager.fromHandle (mgr : Nat) : PhidgetManager :=
  { mgr := mgr, attach_cb := none, detach_cb := none }

/-- `PhidgetManager::set_on_attach_handler`: double-box the closure, call
`PhidgetManager_setOnAttachHandler`, and store the pointer in
`self.attach_cb` only after the `?` on the native code succeeds. -/
def PhidgetManager.set_on_attach_handler (m : PhidgetManager)
    (ctx : Nat) (rc : Nat) :
    PhidgetManager × List Event × Except ReturnCode Unit :=
  let evs := [Event.allocBox ctx, Event.managerSetOnAttach m.mgr ctx]
  match ReturnCode.result rc with
  | Except.ok _ => ({ m with attach_cb := some ctx }, evs, Except.ok ())
  | Except.error e => (m, evs, Except.error e)

/-- `PhidgetManager::set_on_detach_handler` (same shape). -/
def PhidgetManager.set_on_detach_handler (m : PhidgetManager)
    (ctx : Nat) (rc : Nat) :
    PhidgetManager × List Event × Except ReturnCode Unit :=
  let evs := [Event.allocBox ctx, Event.managerSetOnDetach m.mgr ctx]
  match ReturnCode.result rc with
  | Except.ok _ => ({ m with detach_cb := some ctx }, evs, Except.ok ())
  | Except.error e => (m, evs, Except.error e)

/-- `impl Drop for PhidgetManager`: the entire body is
`let _ = unsafe { ffi::PhidgetManager_close(self.mgr) };` — one
unconditional close with its result discarded.  No delete entry point is
called and neither callback slot is released. -/
def PhidgetManager.dropEvents (m : PhidgetManager) : List Event :=
  [Event.managerClose m.mgr]

/-! ## Trace observations -/

/-- Number of events in a trace satisfying `p`. -/
def countBy (p : Event → Bool) : List Event → Nat
  | [] => 0
  | e :: tr => (if p e then 1 else 0) + countBy p tr

/-- Recognizes a `Phidget_release` call (on any handle). -/
def isRelease : Event → Bool
  | Event.release _ => true
  | _ => false

/-- Recognizes a native delete call (on any handle). -/
def isDelete : Event → Bool
  | Event.deleteChan _ => true
  | _ => false

/-- Recognizes a `Phidget_retain` call (on any handle). -/
def isRetain : Event → Bool
  | Event.retain _ => true
  | _ => false

/-- Recognizes the release of the double box at `ctx`. -/
def isFreeOf (ctx : Nat) : Event → Bool
  | Event.freeBox c => c == ctx
  | _ => false

/-- Recognizes the allocation of the double box at `ctx`. -/
def isAllocOf (ctx : Nat) : Event → Bool
  | Event.allocBox c => c == ctx
  | _ => false

theorem countBy_append (p : Event → Bool) (a b : List Event) :
    countBy p (a ++ b) = countBy p a + countBy p b := by
  induction a with
  | nil => simp [countBy]
  | cons e tr ih => simp [countBy, ih]; omega

/-! ## Facts about the fixed code table -/

theorem lookup_eq_none_of_forall_ne {l : List (Nat × ReturnCode)} {v : Nat}
    (h : ∀ p ∈ l, p.1 ≠ v) : l.lookup v = none := by
  induction l with
  | nil => rfl
  | cons q t ih =>
    have hq : q.1 ≠ v := h q (List.mem_cons_self q t)
    have ht : ∀ p ∈ t, p.1 ≠ v := fun p hp => h p (List.mem_cons_of_mem q hp)
    cases q with
    | mk k c =>
      simp only [List.lookup]
      have : (v == k) = false := by
        simp only [beq_eq_false_iff_ne]
        exact fun hv => hq hv.symm
      rw [this]
      exact ih ht

/-- A code outside the fixed table falls through to the wildcard arm. -/
theorem fromNat_eq_unexpected_of_not_mem (v : Nat) (h : v ∉ tableCodes) :
    ReturnCode.fromNat v = ReturnCode.Unexpected := by
  have hne : ∀ p ∈ codeTable, p.1 ≠ v := by
    intro p hp hv
    exact h (hv ▸ List.mem_map_of_mem Prod.fst hp)
  unfold ReturnCode.fromNat
  rw [lookup_eq_none_of_forall_ne hne]

/-- Every code in the fixed table is below 68. -/
theorem mem_tableCodes_lt (c : Nat) (h : c ∈ tableCodes) : c < 68 := by
  have hall : ∀ x ∈ tableCodes, x < 68 := by decide
  exact hall c h

/-- A non-zero code never maps back to the `Ok` sentinel. -/
theorem fromNat_ne_ok (v : Nat) (h : v ≠ 0) :
    ReturnCode.fromNat v ≠ ReturnCode.Ok := by
  by_cases hm : v ∈ tableCodes
  · have hlt := mem_tableCodes_lt v hm
    have hall : ∀ w, w < 68 → w ≠ 0 → ReturnCode.fromNat w ≠ ReturnCode.Ok := by
      decide
    exact hall v hlt h
  · rw [fromNat_eq_unexpected_of_not_mem v hm]
    intro hc
    exact ReturnCode.noConfusion hc

/-- `Ok` is the only variant whose `repr(u32)` discriminant is zero. -/
theorem toNat_eq_zero_iff (e : ReturnCode) :
    ReturnCode.toNat e = 0 ↔ e = ReturnCode.Ok := by
  cases e <;> simp [ReturnCode.toNat]

/-! ## Callback-slot scenarios (`src/devices/humidity_sensor.rs`)

Concrete runs of the wrapper code, with handle `10` and double-box
pointers `1` and `2`, the native registration calls succeeding (code 0)
and the destructor's `is_open()` probe reporting the channel closed. -/

/-- Register a humidity-change handler (box `1`), replace it with a second
one (box `2`), then drop the sensor: the trace of every heap and native
effect, in order. -/
def humidityReplaceTrace : List Event :=
  let s0 := HumiditySensor.fromChan 10
  let r1 := s0.set_on_humidity_change_handler 1 0
  let r2 := r1.1.set_on_humidity_change_handler 2 0
  r1.2.1 ++ r2.2.1 ++ r2.1.dropEvents 0 false

/-- The sensor state after the two registrations above. -/
def humidityReplaceState : HumiditySensor :=
  (((HumiditySensor.fromChan 10).set_on_humidity_change_handler 1 0).1.set_on_humidity_change_handler
    2 0).1

/-- Register a humidity-change handler (box `1`) once, then drop the
sensor. -/
def humiditySingleTrace : List Event :=
  let s0 := HumiditySensor.fromChan 10
  let r1 := s0.set_on_humidity_change_handler 1 0
  r1.2.1 ++ r1.1.dropEvents 0 false

/-! ## Claims -/

/-- Claim C1 (code_bug evidence).  The claim states that replacing an
already-set handler drops the old boxed closure, and that a slot's value
is otherwise dropped exactly once at wrapper drop.  Evaluating the code:
after registering box `1`, replacing it with box `2`, and dropping the
sensor, box `1` was allocated once but freed zero times (it leaks —
`set_on_humidity_change_handler` overwrites `self.cb` without freeing the
old pointer), while box `2` is freed exactly once.  The slot after
replacement holds box `2`, so the trampoline reaches only the second
closure even though the first was never dropped.  The single-registration
scenario does free its box exactly once at drop. -/
theorem C1_replace_leaks_old_box :
    countBy (isAllocOf 1) humidityReplaceTrace = 1 ∧
    countBy (isFreeOf 1) humidityReplaceTrace = 0 ∧
    countBy (isFreeOf 2) humidityReplaceTrace = 1 ∧
    humidityReplaceState.cb = some 2 ∧
    HumiditySensor.on_humidity_change humidityReplaceState.cb =
      [Event.invokeClosure 2] ∧
    countBy (isFreeOf 1) humiditySingleTrace = 1 := by
  decide

/-- Claim C2 (code_bug evidence).  The claim states that every
handle-owning wrapper, the manager included, closes the channel when
`is_open()` reports true, then deletes the native handle, then releases
every still-set callback slot.  The device wrappers do exactly that — the
`HumiditySensor` drop trace below is close, delete, then the three frees
in order — but `PhidgetManager`'s drop is a single unconditional
`PhidgetManager_close`: it never calls a delete entry point and never
frees the registered callback boxes. -/
theorem C2_manager_drop_skips_delete_and_release :
    HumiditySensor.dropEvents
        { chan := 10, cb := some 1, attach_cb := some 2, detach_cb := some 3 }
        0 true =
      [Event.getIsOpen 10, Event.closeChan 10, Event.deleteChan 10,
       Event.freeBox 1, Event.freeBox 2, Event.freeBox 3] ∧
    PhidgetManager.dropEvents { mgr := 3, attach_cb := some 7, detach_cb := some 8 } =
      [Event.managerClose 3] ∧
    countBy isDelete
      (PhidgetManager.dropEvents { mgr := 3, attach_cb := some 7, detach_cb := some 8 }) = 0 ∧
    countBy (isFreeOf 7)
      (PhidgetManager.dropEvents { mgr := 3, attach_cb := some 7, detach_cb := some 8 }) = 0 ∧
    countBy (isFreeOf 8)
      (PhidgetManager.dropEvents { mgr := 3, attach_cb := some 7, detach_cb := some 8 }) = 0 := by
  decide

/-- Claim C3 (code_bug evidence).  The claim states that when the native
set-handler call fails, the already-boxed closure is freed immediately or
parked in the slot for later release, with the error returned.  The
attach/detach registrations do neither: `PhidgetManager::set_on_attach_handler`
with native code 1 returns `Err(Perm)` with the manager state unchanged
(slot still `None`) and no `freeBox` in the trace, and the free function
`set_on_attach_handler` of `src/phidget.rs` likewise allocates the box
and returns the bare error, so the pointer is lost.  Only the data-change
path (last conjunct) parks the box in the slot before the native call. -/
theorem C3_attach_registration_failure_leaks :
    (PhidgetManager.fromHandle 3).set_on_attach_handler 7 1 =
      (PhidgetManager.fromHandle 3,
       [Event.allocBox 7, Event.managerSetOnAttach 3 7],
       Except.error ReturnCode.Perm) ∧
    countBy (isFreeOf 7)
      ((PhidgetManager.fromHandle 3).set_on_attach_handler 7 1).2.1 = 0 ∧
    set_on_attach_handler 5 9 1 =
      ([Event.allocBox 9, Event.setOnAttach 5 9], Except.error ReturnCode.Perm) ∧
    ((HumiditySensor.fromChan 10).set_on_humidity_change_handler 4 1).1.cb = some 4 ∧
    ((HumiditySensor.fromChan 10).set_on_humidity_change_handler 4 1).2.2 =
      Except.error ReturnCode.Perm := by
  exact ⟨rfl, rfl, rfl, rfl, rfl⟩

/-- Claim C4: constructing and dropping any number of non-owning
`PhidgetRef` views over a handle performs no native call at all — in
particular no delete, release, or close — while an explicit promotion is
the operation that issues the `Phidget_retain` call. -/
theorem C4_ref_views_are_side_effect_free (h n rc : Nat) :
    refViewsTrace h n = [] ∧
    (GenericPhidget.try_from { handle := h } rc).1 = [Event.retain h] := by
  constructor
  · induction n with
    | zero => rfl
    | succ k ih =>
      simpa [refViewsTrace, PhidgetRef.new, PhidgetRef.dropEvents] using ih
  · rfl

/-- Claim C5: promotion calls `Phidget_retain` exactly once; when retain
returns zero the result is an owning `GenericPhidget` over the same
handle whose drop performs a `Phidget_release` (and never a delete); when
retain returns non-zero the corresponding error is returned, the
promotion trace contains no release and no delete, and dropping the
original view is still a no-op. -/
theorem C5_promote_retain_release (h rc isOpenRc : Nat) (isOpenVal : Bool) :
    countBy isRetain (GenericPhidget.try_from { handle := h } rc).1 = 1 ∧
    (rc = 0 →
      (GenericPhidget.try_from { handle := h } rc).2 = Except.ok { handle := h } ∧
      countBy isRelease
        (GenericPhidget.dropEvents { handle := h } isOpenRc isOpenVal) = 1 ∧
      countBy isDelete
        (GenericPhidget.dropEvents { handle := h } isOpenRc isOpenVal) = 0) ∧
    (rc ≠ 0 →
      (GenericPhidget.try_from { handle := h } rc).2 =
        Except.error (ReturnCode.fromNat rc) ∧
      countBy isRelease (GenericPhidget.try_from { handle := h } rc).1 = 0 ∧
      countBy isDelete (GenericPhidget.try_from { handle := h } rc).1 = 0 ∧
      PhidgetRef.dropEvents { handle := h } = []) := by
  refine ⟨?_, ?_, ?_⟩
  · simp [GenericPhidget.try_from, countBy, isRetain]
  · rintro rfl
    refine ⟨rfl, ?_, ?_⟩
    · by_cases hc : isOpenRc = 0 ∧ isOpenVal <;>
        simp [GenericPhidget.dropEvents, hc, countBy_append, countBy,
          isRelease]
    · by_cases hc : isOpenRc = 0 ∧ isOpenVal <;>
        simp [GenericPhidget.dropEvents, hc, countBy_append, countBy,
          isDelete]
  · intro hne
    refine ⟨?_, ?_, ?_, rfl⟩
    · cases rc with
      | zero => exact absurd rfl hne
      | succ k => rfl
    · simp [GenericPhidget.try_from, countBy, isRelease]
    · simp [GenericPhidget.try_from, countBy, isDelete]

/-- Witness for C5 at handle `1`: a successful retain (code 0) and a
failed one (code 1), with the destructor probe reporting closed. -/
theorem C5_promote_retain_release_witness :
    ((GenericPhidget.try_from { handle := 1 } 0).2 = Except.ok { handle := 1 } ∧
      countBy isRelease (GenericPhidget.dropEvents { handle := 1 } 0 false) = 1 ∧
      countBy isDelete (GenericPhidget.dropEvents { handle := 1 } 0 false) = 0) ∧
    ((GenericPhidget.try_from { handle := 1 } 1).2 =
        Except.error (ReturnCode.fromNat 1) ∧
      countBy isRelease (GenericPhidget.try_from { handle := 1 } 1).1 = 0 ∧
      countBy isDelete (GenericPhidget.try_from { handle := 1 } 1).1 = 0 ∧
      PhidgetRef.dropEvents { handle := 1 } = []) :=
  ⟨(C5_promote_retain_release 1 0 0 false).2.1 rfl,
   (C5_promote_retain_release 1 1 0 false).2.2 (by decide)⟩

/-- Claim C6: a `Duration` whose total millisecond count exceeds
`2^32 - 1` makes `open_wait` return `InvalidArg` without any native call,
and a `Duration` within the range is passed to
`Phidget_openWaitForAttachment` as its exact millisecond count. -/
theorem C6_open_wait_timeout_range (h : Nat) (d : Duration) (rc : Nat) :
    (4294967295 < d.asMillis →
      open_wait h d rc = ([], Except.error ReturnCode.InvalidArg)) ∧
    (d.asMillis ≤ 4294967295 →
      open_wait h d rc =
        ([Event.openWaitForAttachment h d.asMillis], ReturnCode.result rc)) := by
  constructor
  · intro hgt
    have hn : ¬ d.asMillis < 4294967296 := by omega
    simp [open_wait, hn]
  · intro hle
    have hy : d.asMillis < 4294967296 := by omega
    simp [open_wait, hy]

/-- Witness for C6: 4294968 seconds is 4294968000 ms, past the 32-bit
range; 1.5 s is 1500 ms and is passed through exactly. -/
theorem C6_open_wait_timeout_range_witness :
    open_wait 1 { secs := 4294968, nanos := 0 } 0 =
      ([], Except.error ReturnCode.InvalidArg) ∧
    open_wait 1 { secs := 1, nanos := 500000000 } 3 =
      ([Event.openWaitForAttachment 1 1500], ReturnCode.result 3) :=
  ⟨(C6_open_wait_timeout_range 1 { secs := 4294968, nanos := 0 } 0).1 (by decide),
   (C6_open_wait_timeout_range 1 { secs := 1, nanos := 500000000 } 3).2 (by decide)⟩

/-- Claim C7: `ReturnCode::result` is total on native codes: code 0 gives
`Ok(())`, every non-zero code gives `Err` of the variant looked up in the
fixed table, and every non-zero code absent from the table gives
`Err(Unexpected)`. -/
theorem C7_result_total (rc : Nat) :
    (rc = 0 → ReturnCode.result rc = Except.ok ()) ∧
    (rc ≠ 0 → ReturnCode.result rc = Except.error (ReturnCode.fromNat rc)) ∧
    (rc ≠ 0 → rc ∉ tableCodes →
      ReturnCode.result rc = Except.error ReturnCode.Unexpected) := by
  refine ⟨?_, ?_, ?_⟩
  · rintro rfl; rfl
  · intro h
    cases rc with
    | zero => exact absurd rfl h
    | succ n => rfl
  · intro h hm
    have h2 := fromNat_eq_unexpected_of_not_mem rc hm
    cases rc with
    | zero => exact absurd rfl h
    | succ n =>
      show Except.error (ReturnCode.fromNat (n + 1)) =
        Except.error ReturnCode.Unexpected
      rw [h2]

/-- Witness for C7 at codes 0 and 23 (23 is non-zero and absent from the
table). -/
theorem C7_result_total_witness :
    ReturnCode.result 0 = Except.ok () ∧
    ReturnCode.result 23 = Except.error (ReturnCode.fromNat 23) ∧
    ReturnCode.result 23 = Except.error ReturnCode.Unexpected :=
  ⟨(C7_result_total 0).1 rfl,
   (C7_result_total 23).2.1 (by decide),
   (C7_result_total 23).2.2 (by decide) (by decide)⟩

/-- Claim C8: for every native code in the fixed table, converting it to
a `ReturnCode` and re-deriving the `u32` discriminant reproduces the
code; for code 0 the result of `ReturnCode::result` is `Ok`. -/
theorem C8_code_roundtrip :
    (∀ c ∈ tableCodes, ReturnCode.toNat (ReturnCode.fromNat c) = c) ∧
    ReturnCode.result 0 = Except.ok () := by
  exact ⟨by decide, rfl⟩

/-- Witness for C8 at table code 3 (`Timeout`). -/
theorem C8_code_roundtrip_witness :
    ReturnCode.toNat (ReturnCode.fromNat 3) = 3 :=
  C8_code_roundtrip.1 3 (by decide)

/-- Claim C10: `ReturnCode::result` never yields `Err(ReturnCode::Ok)`:
the result is `Ok(())` exactly for code 0, and any error value is a
variant with a non-zero discriminant. -/
theorem C10_error_is_never_ok (rc : Nat) :
    (ReturnCode.result rc = Except.ok () ↔ rc = 0) ∧
    (∀ e, ReturnCode.result rc = Except.error e →
      e ≠ ReturnCode.Ok ∧ ReturnCode.toNat e ≠ 0) := by
  constructor
  · constructor
    · intro h
      cases rc with
      | zero => rfl
      | succ n => exact Except.noConfusion h
    · rintro rfl; rfl
  · intro e h
    cases rc with
    | zero => exact Except.noConfusion h
    | succ n =>
      have he : e = ReturnCode.fromNat (n + 1) :=
        (Except.error.injEq _ _).mp h.symm
      have hne := fromNat_ne_ok (n + 1) (Nat.succ_ne_zero n)
      subst he
      refine ⟨hne, ?_⟩
      intro hz
      exact hne ((toNat_eq_zero_iff _).mp hz)

/-- Witness for C10 at code 5 (`Io`). -/
theorem C10_error_is_never_ok_witness :
    ReturnCode.Io ≠ ReturnCode.Ok ∧
    ReturnCode.toNat ReturnCode.Io ≠ 0 :=
  (C10_error_is_never_ok 5).2 ReturnCode.Io rfl

/-- Claim C9 counterexample: `Phidget::device_sku` is a string-returning
native call; when the native call succeeds (code 0) with a null output
pointer, the wrapper returns `Ok("")`, not the `NoMemory` error the claim
requires. -/
theorem C9_counterexample_device_sku_null :
    device_sku 0 none = Except.ok "" ∧
    device_sku 0 none ≠ Except.error ReturnCode.NoMemory := by
  refine ⟨rfl, ?_⟩
  intro h
  rw [show device_sku 0 none = Except.ok "" from rfl] at h
  exact Except.noConfusion h

/-- Claim C9 (amended): every string-returning native call routed through
`get_ffi_string` yields a `NoMemory` error when the call succeeds but the
output pointer is null, and copies the string into an owned `String`
otherwise; `device_sku`, which reads its string directly, instead maps a
null pointer to `Ok` of the empty string. -/
theorem C9_ffi_string_null_handling (rc : Nat) (out : Option String) :
    (rc = 0 → out = none →
      get_ffi_string rc out = Except.error ReturnCode.NoMemory) ∧
    (rc = 0 → ∀ s, out = some s → get_ffi_string rc out = Except.ok s) ∧
    (rc ≠ 0 → get_ffi_string rc out = Except.error (ReturnCode.fromNat rc)) ∧
    device_sku 0 none = Except.ok "" := by
  refine ⟨?_, ?_, ?_, rfl⟩
  · rintro rfl rfl; rfl
  · rintro rfl s rfl; rfl
  · intro h
    cases rc with
    | zero => exact absurd rfl h
    | succ n => cases out <;> rfl

/-- Witness for the amended C9: a null pointer with success code 6 is the
native error, a null pointer with code 0 is `NoMemory`, and a non-null
pointer is copied. -/
theorem C9_ffi_string_null_handling_witness :
    get_ffi_string 0 none = Except.error ReturnCode.NoMemory ∧
    get_ffi_string 0 (some "abc") = Except.ok "abc" ∧
    get_ffi_string 6 none = Except.error (ReturnCode.fromNat 6) :=
  ⟨(C9_ffi_string_null_handling 0 none).1 rfl rfl,
   (C9_ffi_string_null_handling 0 (some "abc")).2.1 rfl "abc" rfl,
   (C9_ffi_string_null_handling 6 none).2.2.1 (by decide)⟩

end Phidget
